import Mathlib

/-!
Shallow embedding of `src/utils/getTrustedCertificates.ts`.

The file aggregates trusted TLS certificates from the OS trust store (via the
`win-ca` / `mac-ca` platform readers, which communicate by mutating the shared
`https.globalAgent.options.ca` value) and from user-configured filesystem
paths.  External collaborators (the OS predicates, the filesystem, the vscode
configuration, the platform readers and node's `path.isAbsolute`) are modelled
as an explicit environment; the process-wide mutable state
(`https.globalAgent.options.ca` and the module-level `_systemCertificates`
memo) is threaded as an explicit state record, and user-visible side effects
(warnings, log lines, telemetry) are collected as an event trace.
-/

set_option autoImplicit false

namespace TrustedCerts

/-- A certificate entry: the TypeScript type `string | Buffer`.
Buffers are modelled as byte lists. -/
inductive CertEntry
  | str (s : String)
  | buf (bytes : List Nat)
  deriving DecidableEq, Repr

/-- The value of `https.globalAgent.options.ca`:
`string | Buffer | (string | Buffer)[] | undefined`. -/
inductive CaValue
  | undef
  | single (c : CertEntry)
  | arr (cs : List CertEntry)
  deriving DecidableEq, Repr

/-- JavaScript falsiness of a ca value, as tested by `if (!certificates)`:
`undefined` and the empty string are falsy; a Buffer object and any array
(empty or not) are truthy. -/
def CaValue.falsy : CaValue → Bool
  | .undef => true
  | .single (.str s) => s = ""
  | .single (.buf _) => false
  | .arr _ => false

/-- The normalization performed on the value read back from
`https.globalAgent.options.ca`:
`if (!certificates) { certificates = []; } else if (!Array.isArray(certificates)) { certificates = [certificates]; }`. -/
def normalizeCa (c : CaValue) : List CertEntry :=
  if c.falsy then []
  else
    match c with
    | .undef => []
    | .single x => [x]
    | .arr cs => cs

/-- The three mutually exclusive host OS families reported by the
`isWindows` / `isMac` / `isLinux` predicates of `helpers/osVersion`. -/
inductive OS
  | windows
  | mac
  | linux
  deriving DecidableEq, Repr

/-- Result of `fse.stat`: the two predicates the code reads. -/
structure StatResult where
  isDirectory : Bool
  isFile : Bool
  deriving DecidableEq, Repr

/-- Behaviour of one `require('win-ca')` / `require('mac-ca')` invocation:
given the current `https.globalAgent.options.ca`, the module mutates it to
`newCa`; `threw = true` models the require raising an error (after possibly
having mutated the shared value). -/
structure ReaderOutcome where
  newCa : CaValue
  threw : Bool
  deriving DecidableEq, Repr

/-- The ambient environment of one invocation: OS family, the
`docker.certificates` configuration value, node's `path.isAbsolute`,
the filesystem collaborators (`fse.pathExists`, `fse.stat`, `globAsync`)
and the two platform trust-store readers. `.error ()` on `pathExists` or
`stat` models the promise rejecting (e.g. a permission failure). -/
structure Env where
  os : OS
  config : Option (List String)
  isAbsolute : String → Bool
  pathExists : String → Except Unit Bool
  stat : String → Except Unit StatResult
  globAsync : String → List String
  winReader : CaValue → ReaderOutcome
  macReader : CaValue → ReaderOutcome

/-- The process-wide mutable state the module touches:
`https.globalAgent.options.ca` and the module-level memo `_systemCertificates`. -/
structure SysState where
  ca : CaValue
  systemCertificates : Option (List CertEntry)
  deriving DecidableEq, Repr

/-- Observable actions of `getCertificatesFromSystem`: whether the cache-miss
branch ran (snapshot / read-back / restore of the shared configuration) and
whether a platform reader module was loaded. -/
structure SysTrace where
  interrogated : Bool
  readerInvoked : Bool
  deriving DecidableEq, Repr

/-- The platform dispatch inside the `try` block:
`if (isWindows()) require('win-ca'); else if (isMac()) require('mac-ca'); else if (isLinux()) {}`.
Returns the reader outcome and whether a reader module was loaded. -/
def runPlatformReader (env : Env) (ca : CaValue) : ReaderOutcome × Bool :=
  match env.os with
  | .windows => (env.winReader ca, true)
  | .mac => (env.macReader ca, true)
  | .linux => (⟨ca, false⟩, false)

/-- `getCertificatesFromSystem`: on a cache hit, returns the memoized list.
On a miss, snapshots `ca`, runs the platform reader, and in the `finally`
block reads back `ca` and restores the snapshot; an error from the reader
propagates (no cache written), otherwise the normalized read-back is memoized
and returned. -/
def getCertificatesFromSystem (env : Env) (s : SysState) :
    Except Unit (List CertEntry) × SysState × SysTrace :=
  match s.systemCertificates with
  | some certs => (.ok certs, s, ⟨false, false⟩)
  | none =>
    let previousCertificateAuthorities := s.ca
    let (outcome, invoked) := runPlatformReader env s.ca
    let certificates := outcome.newCa
    let restored : SysState :=
      { ca := previousCertificateAuthorities, systemCertificates := none }
    if outcome.threw then
      (.error (), restored, ⟨true, invoked⟩)
    else
      let certs := normalizeCa certificates
      (.ok certs, { restored with systemCertificates := some certs }, ⟨true, invoked⟩)

/-- User-visible side effects: `ext.ui.showWarningMessage`, `console.log`,
and the telemetry event reported by the umbrella (name, string properties,
suppress flag). -/
inductive Event
  | warning (msg : String)
  | log (msg : String)
  | telemetry (name : String) (props : List (String × String)) (suppressed : Bool)
  deriving DecidableEq, Repr

/-- The warning text for a non-absolute configured path. -/
def warningMessage (certPath : String) : String :=
  "Certificate path \"" ++ certPath ++ "\" is not an absolute path, ignored."

/-- The `console.log` text for an unresolvable configured path (the source
string lacks the closing quote before the period). -/
def couldNotFindMessage (certPath : String) : String :=
  "Could not find certificate path \"" ++ certPath ++ "."

/-- The `isFile` / `isFolder` flags computed for an absolute candidate:
both start `false`; inside `try`, if `pathExists` resolves `true` the candidate
is statted and the flags copied; any rejection is caught and leaves both
`false`. Returned as `(isFile, isFolder)`. -/
def resolveStatFlags (env : Env) (certPath : String) : Bool × Bool :=
  match env.pathExists certPath with
  | .error _ => (false, false)
  | .ok false => (false, false)
  | .ok true =>
    match env.stat certPath with
    | .error _ => (false, false)
    | .ok st => (st.isFile, st.isDirectory)

/-- One iteration of the loop body of `getCertificatesFromPaths`: the
certificates contributed by this candidate and the events it emits. -/
def processCertPath (env : Env) (certPath : String) : List String × List Event :=
  if ¬ env.isAbsolute certPath then
    ([], [.warning (warningMessage certPath)])
  else
    let flags := resolveStatFlags env certPath
    if flags.2 then
      (env.globAsync certPath, [])
    else if flags.1 then
      ([certPath], [])
    else
      ([], [.log (couldNotFindMessage certPath)])

/-- `getCertificatesFromPaths`: processes the candidates in order,
accumulating contributed certificate paths and emitted events. -/
def getCertificatesFromPaths (env : Env) (paths : List String) :
    List String × List Event :=
  match paths with
  | [] => ([], [])
  | certPath :: rest =>
    let here := processCertPath env certPath
    let later := getCertificatesFromPaths env rest
    (here.1 ++ later.1, here.2 ++ later.2)

/-- The default candidate list substituted when the `docker.certificates`
setting is absent on a Linux host. -/
def defaultLinuxCertificatePaths : List String :=
  ["/etc/ssl/certs/ca-certificates", "/etc/openssl/certs",
   "/etc/pki/tls/certs", "/usr/local/share/certs"]

/-- Resolution of the `docker.certificates` configuration value:
`undefined` is replaced by the Linux default list on Linux and by `[]`
elsewhere. -/
def resolveCertificatePaths (env : Env) : List String :=
  match env.config with
  | some ps => ps
  | none => if env.os = OS.linux then defaultLinuxCertificatePaths else []

/-- The action body passed to `callWithTelemetryAndErrorHandling`:
gets the system certificates (an error propagates to the umbrella), resolves
the configured paths, collects the path certificates, records the two count
properties, then `certificates.push(...folderCerts)` — which appends in place
to the very array object `_systemCertificates` references, so the memoized
state is updated to the concatenation as well. -/
def getTrustedCertificatesBody (env : Env) (s : SysState) :
    Except Unit (List CertEntry) × SysState × List Event × List (String × String) :=
  match getCertificatesFromSystem env s with
  | (.error e, s1, _) => (.error e, s1, [], [])
  | (.ok systemCerts, s1, _) =>
    let certificatePaths := resolveCertificatePaths env
    let folder := getCertificatesFromPaths env certificatePaths
    let props := [("fromSystemCount", toString systemCerts.length),
                  ("fromPathsCount", toString folder.1.length)]
    let certificates := systemCerts ++ folder.1.map CertEntry.str
    (.ok certificates,
      { s1 with systemCertificates := some certificates },
      folder.2, props)

/-- Result of one public invocation: the value the promise resolves to
(`none` models `undefined`), the process state afterwards, and the events
emitted. -/
structure CallResult where
  value : Option (List CertEntry)
  state : SysState
  events : List Event
  deriving DecidableEq, Repr

/-- Modelled from the spec: `callWithTelemetryAndErrorHandling` of the external
`vscode-azureextensionui` package (not under `src/`). Per the spec it exists
only to attach uniform diagnostics: it always reports one named telemetry
event carrying the properties the action recorded, suppressed from default
aggregate reporting (`this.suppressTelemetry = true`), and it swallows an
error raised by the action instead of rethrowing, resolving to no value in
that case. -/
def callWithTelemetryAndErrorHandling (eventName : String)
    (body : Except Unit (List CertEntry) × SysState × List Event × List (String × String)) :
    CallResult :=
  match body with
  | (.ok v, s, evts, props) =>
    ⟨some v, s, evts ++ [.telemetry eventName props true]⟩
  | (.error _, s, evts, props) =>
    ⟨none, s, evts ++ [.telemetry eventName props true]⟩

/-- The public operation `getTrustedCertificates`. -/
def getTrustedCertificates (env : Env) (s : SysState) : CallResult :=
  callWithTelemetryAndErrorHandling "docker.certificates"
    (getTrustedCertificatesBody env s)

/-- The path-derived contribution of one invocation under environment `env`,
as it appears in the aggregated result. -/
def folderPart (env : Env) : List CertEntry :=
  (getCertificatesFromPaths env (resolveCertificatePaths env)).1.map CertEntry.str

/-- State of the process after a sequence of invocations, one environment per
invocation. -/
def runCalls (s : SysState) : List Env → SysState
  | [] => s
  | env :: rest => runCalls (getTrustedCertificates env s).state rest

/-- A trivial reader: the module load leaves the shared configuration
unchanged and does not throw. -/
def idReader : CaValue → ReaderOutcome := fun ca => ⟨ca, false⟩

/-- Concrete Linux environment: the setting names the single path `/a`,
which exists and is a regular file. -/
def envL : Env where
  os := .linux
  config := some ["/a"]
  isAbsolute := fun p => p == "/a"
  pathExists := fun p => .ok (p == "/a")
  stat := fun p => if p == "/a" then .ok ⟨false, true⟩ else .error ()
  globAsync := fun _ => []
  winReader := idReader
  macReader := idReader

/-- Concrete Windows environment whose `win-ca` load throws. -/
def envW : Env where
  os := .windows
  config := some []
  isAbsolute := fun _ => false
  pathExists := fun _ => .ok false
  stat := fun _ => .error ()
  globAsync := fun _ => []
  winReader := fun _ => ⟨.undef, true⟩
  macReader := idReader

/-- Concrete Linux environment with an empty configured path list. -/
def envLinuxPlain : Env where
  os := .linux
  config := some []
  isAbsolute := fun _ => false
  pathExists := fun _ => .ok false
  stat := fun _ => .error ()
  globAsync := fun _ => []
  winReader := idReader
  macReader := idReader

/-- Concrete environment for the ordering scenario: `/a` is a regular file
and `/b` is a directory whose recursive enumeration yields two files. -/
def envAB : Env where
  os := .linux
  config := some ["/a", "/b"]
  isAbsolute := fun p => p == "/a" || p == "/b"
  pathExists := fun p => .ok (p == "/a" || p == "/b")
  stat := fun p =>
    if p == "/a" then .ok ⟨false, true⟩
    else if p == "/b" then .ok ⟨true, false⟩
    else .error ()
  globAsync := fun p => if p == "/b" then ["/b/f1", "/b/f2"] else []
  winReader := idReader
  macReader := idReader

/-- Concrete environment for the absolute-path filter scenario:
`relative/x` is not absolute, `/abs/y` is an existing regular file. -/
def envRel : Env where
  os := .linux
  config := some ["relative/x", "/abs/y"]
  isAbsolute := fun p => p == "/abs/y"
  pathExists := fun p => .ok (p == "/abs/y")
  stat := fun p => if p == "/abs/y" then .ok ⟨false, true⟩ else .error ()
  globAsync := fun _ => []
  winReader := idReader
  macReader := idReader

/-- Concrete environment in which the configured path `/missing` is absolute
but does not exist. -/
def envMissing : Env where
  os := .linux
  config := some ["/missing"]
  isAbsolute := fun p => p == "/missing"
  pathExists := fun _ => .ok false
  stat := fun _ => .error ()
  globAsync := fun _ => []
  winReader := idReader
  macReader := idReader

/-- Concrete Linux environment with no `docker.certificates` setting. -/
def envNoConfig : Env where
  os := .linux
  config := none
  isAbsolute := fun _ => false
  pathExists := fun _ => .ok false
  stat := fun _ => .error ()
  globAsync := fun _ => []
  winReader := idReader
  macReader := idReader

/-- Fresh process state: shared configuration unset, memo unset. -/
def s0 : SysState := ⟨.undef, none⟩

/-- Process state whose shared configuration already holds one entry and whose
memo is unset. -/
def sX : SysState := ⟨.single (.str "X"), none⟩

/- ------------------------------------------------------------------ -/
/- Helper lemmas shared across the development.                        -/
/- ------------------------------------------------------------------ -/

/-- Path processing distributes over appending candidate lists. -/
theorem getCertificatesFromPaths_append (env : Env) (xs ys : List String) :
    getCertificatesFromPaths env (xs ++ ys) =
      ((getCertificatesFromPaths env xs).1 ++ (getCertificatesFromPaths env ys).1,
       (getCertificatesFromPaths env xs).2 ++ (getCertificatesFromPaths env ys).2) := by
  induction xs with
  | nil => simp [getCertificatesFromPaths]
  | cons x xs ih => simp [getCertificatesFromPaths, ih, List.append_assoc]

/-- On a cache hit, system extraction returns the memo and performs nothing. -/
theorem getCertificatesFromSystem_cached (env : Env) (s : SysState)
    (C : List CertEntry) (h : s.systemCertificates = some C) :
    getCertificatesFromSystem env s = (.ok C, s, ⟨false, false⟩) := by
  unfold getCertificatesFromSystem
  rw [h]

/-- An invocation from a cache-hit state returns the memoized list followed by
this invocation's path part, and overwrites the memo with that concatenation. -/
theorem getTrustedCertificates_cached (env : Env) (s : SysState)
    (C : List CertEntry) (h : s.systemCertificates = some C) :
    getTrustedCertificates env s =
      ⟨some (C ++ folderPart env),
       ⟨s.ca, some (C ++ folderPart env)⟩,
       (getCertificatesFromPaths env (resolveCertificatePaths env)).2 ++
         [.telemetry "docker.certificates"
           [("fromSystemCount", toString C.length),
            ("fromPathsCount", toString (folderPart env).length)] true]⟩ := by
  unfold getTrustedCertificates getTrustedCertificatesBody
  rw [getCertificatesFromSystem_cached env s C h]
  simp [callWithTelemetryAndErrorHandling, folderPart]

/-- Running invocations from a cache-hit state appends each invocation's path
part to the memo, in invocation order, and never touches the shared
configuration. -/
theorem runCalls_cached (es : List Env) (s : SysState) (C : List CertEntry)
    (h : s.systemCertificates = some C) :
    runCalls s es = ⟨s.ca, some (C ++ (es.map folderPart).flatten)⟩ := by
  induction es generalizing s C with
  | nil => cases s with
    | mk ca memo => simp_all [runCalls]
  | cons e es ih =>
    rw [runCalls, getTrustedCertificates_cached e s C h]
    rw [ih _ _ rfl]
    simp

/- ------------------------------------------------------------------ -/
/- Claim theorems.                                                     -/
/- ------------------------------------------------------------------ -/

/-- C2: After the system trust-store extraction completes — whether the
platform reader returned normally or raised an error — the shared
process-wide HTTPS trust configuration (`https.globalAgent.options.ca`)
equals its value immediately before the extraction was invoked. -/
theorem c2_ca_restored (env : Env) (s : SysState) :
    ((getCertificatesFromSystem env s).2.1).ca = s.ca := by
  unfold getCertificatesFromSystem
  cases s.systemCertificates with
  | some c => rfl
  | none =>
    dsimp only
    split <;> rfl

/-- C3 counterexample: when the first call's platform reader raises, nothing
is memoized, so the second call performs the OS interrogation again — the
interrogation is not confined to the first call. -/
theorem c3_interrogates_twice :
    (getCertificatesFromSystem envW s0).1 = .error () ∧
    (getCertificatesFromSystem envW s0).2.2.interrogated = true ∧
    (getCertificatesFromSystem envW (getCertificatesFromSystem envW s0).2.1).2.2.interrogated
      = true :=
  ⟨rfl, rfl, rfl⟩

/-- C3 amended: if the first call to `getCertificatesFromSystem` from an
uncached state returns normally, it performed the OS interrogation, and any
later call reuses the memo: it performs no interrogation, invokes no reader,
leaves the state unchanged, and returns the same sequence. -/
theorem c3_cached_after_success (env1 env2 : Env) (s : SysState)
    (certs : List CertEntry) (s1 : SysState) (t1 : SysTrace)
    (h0 : s.systemCertificates = none)
    (h : getCertificatesFromSystem env1 s = (.ok certs, s1, t1)) :
    t1.interrogated = true ∧
    getCertificatesFromSystem env2 s1 = (.ok certs, s1, ⟨false, false⟩) := by
  unfold getCertificatesFromSystem at h
  rw [h0] at h
  dsimp only at h
  split at h
  · simp at h
  · simp only [Prod.mk.injEq, Except.ok.injEq] at h
    obtain ⟨hok, hs, ht⟩ := h
    refine ⟨by rw [← ht], ?_⟩
    refine getCertificatesFromSystem_cached env2 s1 certs ?_
    rw [← hs, hok]

/-- Witness for `c3_cached_after_success` at a concrete Linux input. -/
theorem c3_cached_after_success_witness :
    s0.systemCertificates = none ∧
    getCertificatesFromSystem envLinuxPlain s0
      = (.ok [], ⟨.undef, some []⟩, ⟨true, false⟩) ∧
    ((⟨true, false⟩ : SysTrace).interrogated = true ∧
      getCertificatesFromSystem envLinuxPlain ⟨.undef, some []⟩
        = (.ok [], ⟨.undef, some []⟩, ⟨false, false⟩)) :=
  ⟨rfl, rfl,
    c3_cached_after_success envLinuxPlain envLinuxPlain s0 []
      ⟨.undef, some []⟩ ⟨true, false⟩ rfl rfl⟩

/-- C5 counterexample: on a Linux host whose shared trust configuration
already holds an entry, system extraction invokes no reader but its
contribution is that entry, not the empty sequence. -/
theorem c5_linux_contribution_not_empty :
    (getCertificatesFromSystem envLinuxPlain sX).1 = .ok [CertEntry.str "X"] ∧
    [CertEntry.str "X"] ≠ ([] : List CertEntry) :=
  ⟨rfl, by decide⟩

/-- C5 amended: on a Linux host, an uncached system extraction invokes no
platform reader, and its contribution is the normalization of the shared
trust configuration's pre-existing value — empty exactly when that value is
unset (or otherwise falsy). -/
theorem c5_linux_no_reader (env : Env) (s : SysState)
    (h1 : env.os = OS.linux) (h2 : s.systemCertificates = none) :
    getCertificatesFromSystem env s =
      (.ok (normalizeCa s.ca), ⟨s.ca, some (normalizeCa s.ca)⟩, ⟨true, false⟩) := by
  unfold getCertificatesFromSystem
  rw [h2]
  simp [runPlatformReader, h1]

/-- Witness for `c5_linux_no_reader`: with the shared value unset the system
contribution is empty. -/
theorem c5_linux_no_reader_witness :
    envLinuxPlain.os = OS.linux ∧ s0.systemCertificates = none ∧
    normalizeCa s0.ca = [] ∧
    getCertificatesFromSystem envLinuxPlain s0 =
      (.ok (normalizeCa s0.ca), ⟨s0.ca, some (normalizeCa s0.ca)⟩, ⟨true, false⟩) :=
  ⟨rfl, rfl, rfl, c5_linux_no_reader envLinuxPlain s0 rfl rfl⟩

/-- C8: when the `docker.certificates` setting is absent, the substituted
default list is the four fixed paths on a Linux host and empty on every
other host. -/
theorem c8_default_paths (env : Env) (h : env.config = none) :
    resolveCertificatePaths env =
      if env.os = OS.linux then
        ["/etc/ssl/certs/ca-certificates", "/etc/openssl/certs",
         "/etc/pki/tls/certs", "/usr/local/share/certs"]
      else [] := by
  unfold resolveCertificatePaths
  rw [h]
  rfl

/-- Witness for `c8_default_paths` on a Linux host with no setting. -/
theorem c8_default_paths_witness :
    envNoConfig.config = none ∧
    resolveCertificatePaths envNoConfig =
      if envNoConfig.os = OS.linux then
        ["/etc/ssl/certs/ca-certificates", "/etc/openssl/certs",
         "/etc/pki/tls/certs", "/usr/local/share/certs"]
      else [] :=
  ⟨rfl, c8_default_paths envNoConfig rfl⟩

/-- C6: for candidates `[A, B]` with `A` an existing regular file and `B` an
existing directory whose enumeration yields `[f1, f2]`, the path-derived
result is `[A, f1, f2]`, each candidate's contribution in input order. -/
theorem c6_ordering (env : Env) (A B f1 f2 : String)
    (hA : env.isAbsolute A = true)
    (hAe : env.pathExists A = .ok true)
    (hAs : env.stat A = .ok ⟨false, true⟩)
    (hB : env.isAbsolute B = true)
    (hBe : env.pathExists B = .ok true)
    (hBs : env.stat B = .ok ⟨true, false⟩)
    (hBg : env.globAsync B = [f1, f2]) :
    (getCertificatesFromPaths env [A, B]).1 = [A, f1, f2] := by
  simp [getCertificatesFromPaths, processCertPath, resolveStatFlags,
    hA, hAe, hAs, hB, hBe, hBs, hBg]

/-- Witness for `c6_ordering` in the concrete two-candidate environment. -/
theorem c6_ordering_witness :
    envAB.isAbsolute "/a" = true ∧ envAB.pathExists "/a" = .ok true ∧
    envAB.stat "/a" = .ok ⟨false, true⟩ ∧
    envAB.isAbsolute "/b" = true ∧ envAB.pathExists "/b" = .ok true ∧
    envAB.stat "/b" = .ok ⟨true, false⟩ ∧
    envAB.globAsync "/b" = ["/b/f1", "/b/f2"] ∧
    (getCertificatesFromPaths envAB ["/a", "/b"]).1 = ["/a", "/b/f1", "/b/f2"] :=
  ⟨rfl, rfl, rfl, rfl, rfl, rfl, rfl,
    c6_ordering envAB "/a" "/b" "/b/f1" "/b/f2" rfl rfl rfl rfl rfl rfl rfl⟩

/-- C7: a non-absolute candidate contributes no entries, a warning naming it
is surfaced, and the remaining candidates are processed exactly as if it were
absent. -/
theorem c7_nonabsolute_filtered (env : Env) (p : String) (ps1 ps2 : List String)
    (h : env.isAbsolute p = false) :
    (getCertificatesFromPaths env (ps1 ++ p :: ps2)).1 =
      (getCertificatesFromPaths env (ps1 ++ ps2)).1 ∧
    (getCertificatesFromPaths env (ps1 ++ p :: ps2)).2 =
      (getCertificatesFromPaths env ps1).2 ++
        .warning (warningMessage p) :: (getCertificatesFromPaths env ps2).2 := by
  have hp : processCertPath env p = ([], [.warning (warningMessage p)]) := by
    simp [processCertPath, h]
  have hcons : getCertificatesFromPaths env (p :: ps2) =
      ((getCertificatesFromPaths env ps2).1,
        .warning (warningMessage p) :: (getCertificatesFromPaths env ps2).2) := by
    rw [getCertificatesFromPaths, hp]
    rfl
  rw [getCertificatesFromPaths_append env ps1 (p :: ps2),
    getCertificatesFromPaths_append env ps1 ps2, hcons]
  exact ⟨rfl, rfl⟩

/-- Witness for `c7_nonabsolute_filtered` at the spec's example
`["relative/x", "/abs/y"]`. -/
theorem c7_nonabsolute_filtered_witness :
    envRel.isAbsolute "relative/x" = false ∧
    ((getCertificatesFromPaths envRel ([] ++ "relative/x" :: ["/abs/y"])).1 =
        (getCertificatesFromPaths envRel ([] ++ ["/abs/y"])).1 ∧
      (getCertificatesFromPaths envRel ([] ++ "relative/x" :: ["/abs/y"])).2 =
        (getCertificatesFromPaths envRel []).2 ++
          .warning (warningMessage "relative/x") ::
            (getCertificatesFromPaths envRel ["/abs/y"]).2) :=
  ⟨rfl, c7_nonabsolute_filtered envRel "relative/x" [] ["/abs/y"] rfl⟩

/-- C9 counterexample: when the platform reader raises during the first
system extraction, the umbrella swallows the error and the invocation
resolves to no list at all (`undefined`), not to a possibly-empty list. -/
theorem c9_no_result_on_reader_error :
    (getTrustedCertificates envW s0).value = none :=
  rfl

/-- C9 amended: an absolute candidate that does not exist, or whose stat
fails, contributes no entries (only a log line) and the remaining candidates
are processed unaffected; no exception escapes the aggregation, which returns
the aggregated list whenever system extraction returns normally — but when
the platform reader raises, the invocation yields no list (`undefined`)
rather than an empty one. -/
theorem c9_unresolvable_skipped (env : Env) (p : String) (ps1 ps2 : List String)
    (s : SysState)
    (h1 : env.isAbsolute p = true)
    (h2 : resolveStatFlags env p = (false, false)) :
    (getCertificatesFromPaths env (ps1 ++ p :: ps2)).1 =
      (getCertificatesFromPaths env (ps1 ++ ps2)).1 ∧
    (getCertificatesFromPaths env (ps1 ++ p :: ps2)).2 =
      (getCertificatesFromPaths env ps1).2 ++
        .log (couldNotFindMessage p) :: (getCertificatesFromPaths env ps2).2 ∧
    (∀ certs s1 t, getCertificatesFromSystem env s = (.ok certs, s1, t) →
      (getTrustedCertificates env s).value = some (certs ++ folderPart env)) := by
  have hp : processCertPath env p = ([], [.log (couldNotFindMessage p)]) := by
    simp [processCertPath, h1, h2]
  have hcons : getCertificatesFromPaths env (p :: ps2) =
      ((getCertificatesFromPaths env ps2).1,
        .log (couldNotFindMessage p) :: (getCertificatesFromPaths env ps2).2) := by
    rw [getCertificatesFromPaths, hp]
    rfl
  refine ⟨?_, ?_, ?_⟩
  · rw [getCertificatesFromPaths_append env ps1 (p :: ps2),
      getCertificatesFromPaths_append env ps1 ps2, hcons]
  · rw [getCertificatesFromPaths_append env ps1 (p :: ps2), hcons]
  · intro certs s1 t hsys
    unfold getTrustedCertificates getTrustedCertificatesBody
    rw [hsys]
    simp [callWithTelemetryAndErrorHandling, folderPart]

/-- Witness for `c9_unresolvable_skipped` at the missing path `/missing`. -/
theorem c9_unresolvable_skipped_witness :
    envMissing.isAbsolute "/missing" = true ∧
    resolveStatFlags envMissing "/missing" = (false, false) ∧
    ((getCertificatesFromPaths envMissing ([] ++ "/missing" :: [])).1 =
        (getCertificatesFromPaths envMissing ([] ++ [])).1 ∧
      (getCertificatesFromPaths envMissing ([] ++ "/missing" :: [])).2 =
        (getCertificatesFromPaths envMissing []).2 ++
          .log (couldNotFindMessage "/missing") ::
            (getCertificatesFromPaths envMissing []).2 ∧
      (∀ certs s1 t,
        getCertificatesFromSystem envMissing s0 = (.ok certs, s1, t) →
        (getTrustedCertificates envMissing s0).value =
          some (certs ++ folderPart envMissing))) :=
  ⟨rfl, rfl, c9_unresolvable_skipped envMissing "/missing" [] [] s0 rfl rfl⟩

/-- C1 evaluated at the failing input: on Linux with the shared value unset,
the system source contributes no entries and the configured path `/a`
contributes one; yet the second invocation returns two copies of `/a`,
because the first invocation appended its path entry to the memoized
system-certificate array in place. -/
theorem c1_second_invocation_polluted :
    (getCertificatesFromSystem envL s0).1 = .ok ([] : List CertEntry) ∧
    (getTrustedCertificates envL s0).value = some [CertEntry.str "/a"] ∧
    (getTrustedCertificates envL (getTrustedCertificates envL s0).state).value =
      some [CertEntry.str "/a", CertEntry.str "/a"] :=
  ⟨rfl, rfl, rfl⟩

/-- C4: from any state whose memo holds `C`, running any earlier invocations
and then one more returns `C`, then the path parts of all earlier invocations
in order, then the current invocation's own path part; and the reported
`fromSystemCount` of the current invocation counts `C` together with all
earlier path parts. -/
theorem c4_inplace_append (s : SysState) (C : List CertEntry)
    (es : List Env) (e : Env)
    (h : s.systemCertificates = some C) :
    (getTrustedCertificates e (runCalls s es)).value =
      some ((C ++ (es.map folderPart).flatten) ++ folderPart e) ∧
    (getTrustedCertificates e (runCalls s es)).events.getLast? =
      some (.telemetry "docker.certificates"
        [("fromSystemCount", toString (C ++ (es.map folderPart).flatten).length),
         ("fromPathsCount", toString (folderPart e).length)] true) := by
  rw [runCalls_cached es s C h,
    getTrustedCertificates_cached e ⟨s.ca, some (C ++ (es.map folderPart).flatten)⟩
      (C ++ (es.map folderPart).flatten) rfl]
  exact ⟨rfl, by simp⟩

/-- Witness for `c4_inplace_append`: one earlier invocation contributing
`/a`, then a second invocation contributing `/a` again. -/
theorem c4_inplace_append_witness :
    (⟨CaValue.undef, some []⟩ : SysState).systemCertificates = some [] ∧
    ((getTrustedCertificates envL (runCalls ⟨CaValue.undef, some []⟩ [envL])).value =
        some ((([] : List CertEntry) ++ ([envL].map folderPart).flatten) ++ folderPart envL) ∧
      (getTrustedCertificates envL (runCalls ⟨CaValue.undef, some []⟩ [envL])).events.getLast? =
        some (.telemetry "docker.certificates"
          [("fromSystemCount",
              toString (([] : List CertEntry) ++ ([envL].map folderPart).flatten).length),
           ("fromPathsCount", toString (folderPart envL).length)] true)) :=
  ⟨rfl, c4_inplace_append ⟨CaValue.undef, some []⟩ [] [envL] envL rfl⟩

/-- C10 evaluated at the failing input: on the second invocation the system
source contributed no entries, yet the telemetry event reports
`fromSystemCount = "1"`, because the memoized array was polluted by the first
invocation's path entry. -/
theorem c10_system_count_miscounts :
    (getCertificatesFromSystem envL s0).1 = .ok ([] : List CertEntry) ∧
    (getTrustedCertificates envL (getTrustedCertificates envL s0).state).events =
      [.telemetry "docker.certificates"
        [("fromSystemCount", "1"), ("fromPathsCount", "1")] true] :=
  ⟨rfl, rfl⟩

end TrustedCerts
